import Mathlib

/-!
Shallow embedding of `comparison_app.py` (an Excel duplicate-finder).

The program has three relevant functions:

* `load_dataframe_from_selected_sheets` — reads requested sheets, keeps those
  whose schema contains the identifier column, normalizes that column
  (`df[id].astype(str).str.strip()`), concatenates retained sheets in request
  order, and reports an error when no sheet was retained.
* `find_duplicates` — builds a lookup set
  `set(df2[id2].dropna().astype(str).str.strip())`, scans `df1` in contiguous
  chunks, adds a `Standard_ID` column holding the normalized identifier,
  filters each chunk by set membership, left-merges the matched rows against
  `df2` on `Standard_ID = id2` with suffixes `(_File1, _File2)`, and
  concatenates the per-chunk results.

A dataframe is modelled as a list of rows; a row is an association list from
column name to cell value.  A cell is a string, an integer, or the missing
marker (pandas `NaN`).  `astype(str)` maps the missing marker to the string
"nan" exactly as pandas does; `.str.strip()` is Python `str.strip`, modelled
by `pyStrip`.  Streamlit message calls are modelled as a `Msg` log.
-/

/-- A spreadsheet cell: a string, an integer, or the missing marker (NaN). -/
inductive Val where
  | str : String → Val
  | intv : Int → Val
  | missing : Val
deriving DecidableEq, Repr

/-- A dataframe row: an ordered association list from column name to value. -/
abbrev Row := List (String × Val)

/-- A dataframe: an ordered list of rows. -/
abbrev DF := List Row

/-- Column access `row[c]`: the first binding of column `c`; absent columns
read as the missing marker (pandas fills absent cells with NaN). -/
def getVal (r : Row) (c : String) : Val :=
  match r.find? (fun p => p.1 == c) with
  | some p => p.2
  | none => Val.missing

/-- Column assignment `row[c] = v`: pandas replaces an existing column in
place, otherwise appends the new column at the end of the schema. -/
def setCol (r : Row) (c : String) (v : Val) : Row :=
  if r.any (fun p => p.1 == c) then
    r.map (fun p => if p.1 == c then (c, v) else p)
  else
    r ++ [(c, v)]

/-- Python `str(x)` on a cell: strings unchanged, numbers printed, and the
missing marker (NaN) printed as "nan" — pandas `astype(str)` semantics. -/
def Val.toPyStr : Val → String
  | .str s => s
  | .intv n => toString n
  | .missing => "nan"

/-- Python `str.strip()`: drop leading and trailing whitespace. -/
def pyStrip (s : String) : String :=
  String.mk (((s.data.dropWhile Char.isWhitespace).reverse.dropWhile
    Char.isWhitespace).reverse)

/-- The identifier normalization `astype(str).str.strip()` applied to one
cell: string cast followed by whitespace trim. -/
def normId (v : Val) : String := pyStrip v.toPyStr

/-- Line 33 of the source, `df[c] = df[c].astype(str).str.strip()`:
normalize the identifier column of every row in place. -/
def normalizeIdCol (df : DF) (c : String) : DF :=
  df.map (fun r => setCol r c (Val.str (normId (getVal r c))))

/-- A Streamlit message: `st.info` / `st.warning` / `st.error` /
`st.success`, with its text. -/
inductive Msg where
  | info : String → Msg
  | warning : String → Msg
  | error : String → Msg
  | success : String → Msg
deriving DecidableEq, Repr

/-- Whether a message is an `st.error` report. -/
def Msg.isError : Msg → Bool
  | .error _ => true
  | _ => false

/-- A parsed worksheet: its name, its header (schema, present even for a
sheet with zero data rows), and its rows. -/
structure Sheet where
  name : String
  header : List String
  rows : DF
deriving DecidableEq, Repr

/-- One iteration of the loader loop body: look the requested sheet up; if
present and its header has the identifier column, normId that column and
retain the rows (plus an info message); otherwise emit a warning and retain
nothing. -/
def loadStep (xls : List Sheet) (idColumn : String)
    (acc : List DF × List Msg) (sheetName : String) : List DF × List Msg :=
  match xls.find? (fun s => s.name == sheetName) with
  | some sh =>
      if sh.header.contains idColumn then
        (acc.1 ++ [normalizeIdCol sh.rows idColumn],
         acc.2 ++ [Msg.info ("Loaded data from sheet " ++ sheetName)])
      else
        (acc.1, acc.2 ++ [Msg.warning ("Column " ++ idColumn ++
          " not found in sheet " ++ sheetName ++ ". Skipping this sheet.")])
  | none =>
      (acc.1, acc.2 ++ [Msg.warning ("Sheet " ++ sheetName ++
        " not found. Skipping.")])

/-- Lines 22-49 of the source, `load_dataframe_from_selected_sheets`: fold
the loader loop over the requested sheet names; if no sheet was retained
report an error and return the empty dataframe, otherwise concatenate the
retained sheets in request order (`pd.concat(all_dfs, ignore_index=True)`). -/
def load_dataframe_from_selected_sheets (xls : List Sheet)
    (sheetNamesToLoad : List String) (idColumn : String) : DF × List Msg :=
  let res := sheetNamesToLoad.foldl (loadStep xls idColumn) ([], [])
  if res.1.isEmpty then
    ([], res.2 ++ [Msg.error ("ID column " ++ idColumn ++
      " not found in any of the selected sheets.")])
  else
    (res.1.flatten, res.2)

/-- The lookup set `set(df2[id2].dropna().astype(str).str.strip().tolist())`
(line 60): drop missing values, then normalize.  Modelled as the list of
normalized values; only membership is ever used. -/
def validIdsSet (df2 : DF) (c2 : String) : List String :=
  ((df2.map (fun r => getVal r c2)).filter (fun v => v != Val.missing)).map
    normId

/-- Line 66 of the source: `chunk[id1].astype(str).str.strip()` assigned to
the new column `Standard_ID`. -/
def addStandardID (c1 : String) (r : Row) : Row :=
  setCol r "Standard_ID" (Val.str (normId (getVal r c1)))

/-- Pandas `Series.isin(valid_ids_set)` on one cell against a set of strings: true
exactly when the cell is that string. -/
def isinSet (v : Val) (ids : List String) : Bool :=
  match v with
  | .str s => ids.contains s
  | _ => false

/-- Pandas merge-key equality: missing (NaN) never equals anything, and
otherwise values are equal when identical (no cross-type coercion). -/
def joinEq (v w : Val) : Bool :=
  match v, w with
  | .missing, _ => false
  | _, .missing => false
  | v, w => v == w

/-- Suffix a column binding when its name collides with the other frame
(pandas merge `suffixes=(_File1, _File2)` behaviour). -/
def suffixIfIn (suf : String) (other : List String) (p : String × Val) :
    String × Val :=
  if other.contains p.1 then (p.1 ++ suf, p.2) else p

/-- The schema of a dataframe: the column names of its first row. -/
def cols (df : DF) : List String :=
  match df with
  | [] => []
  | r :: _ => r.map (fun p => p.1)

/-- One output row of the merge: the left row's bindings (suffixed with
`_File1` where the name also occurs in the right frame) followed by the right
row's bindings (suffixed with `_File2` where the name also occurs in the left
row). -/
def mergeRow (rightCols : List String) (lrow rrow : Row) : Row :=
  lrow.map (suffixIfIn "_File1" rightCols) ++
    rrow.map (suffixIfIn "_File2" (lrow.map (fun p => p.1)))

/-- Left merge of one left row against `df2` on
`Standard_ID = c2` (lines 71-77): every right row with an equal key produces
one output row, in right-frame order; a left row with no equal key is kept
once, its right columns filled with the missing marker. -/
def joinOneRow (df2 : DF) (c2 : String) (lrow : Row) : List Row :=
  let ms := df2.filter (fun rrow => joinEq (getVal lrow "Standard_ID")
    (getVal rrow c2))
  if ms.isEmpty then
    [mergeRow (cols df2) lrow ((cols df2).map (fun c => (c, Val.missing)))]
  else
    ms.map (fun rrow => mergeRow (cols df2) lrow rrow)

/-- The merge call `matched_chunk.merge(df2, left_on='Standard_ID',
right_on=c2, how='left', suffixes=('_File1','_File2'))`: left rows in order,
each fanned out by
`joinOneRow`. -/
def mergeLeft (matched : DF) (df2 : DF) (c2 : String) : DF :=
  matched.flatMap (joinOneRow df2 c2)

/-- The body of one chunk iteration (lines 65-78): add `Standard_ID`, filter
by membership in the lookup set, and, when the filter kept anything, merge
against `df2`. -/
def processChunk (validIds : List String) (df2 : DF) (c1 c2 : String)
    (chunk : DF) : DF :=
  let chunk2 := chunk.map (addStandardID c1)
  let matched := chunk2.filter (fun r => isinSet (getVal r "Standard_ID")
    validIds)
  if matched.isEmpty then [] else mergeLeft matched df2 c2

/-- Split a list into contiguous chunks of size `n`, fuelled recursion
(`range(0, total, chunk_size)` with `iloc[start:end]`). -/
def chunkListAux (fuel : Nat) (n : Nat) (xs : List α) : List (List α) :=
  match fuel, xs with
  | 0, _ => []
  | _, [] => []
  | fuel + 1, xs => xs.take n :: chunkListAux fuel n (xs.drop n)

/-- Split a list into contiguous chunks of size `n`, preserving order. -/
def chunkList (n : Nat) (xs : List α) : List (List α) :=
  chunkListAux xs.length n xs

/-- The final `st.success` text when no chunk produced matches. -/
def noDupMsg : String := "Comparison complete! No duplicates were found."

/-- The final `st.success` text when matches were found. -/
def foundMsg (k : Nat) : String :=
  "Comparison complete! Found " ++ toString k ++ " duplicate records."

/-- Lines 52-93 of the source, `find_duplicates`: build the lookup set,
process each chunk, keep the non-empty chunk results (`duplicates.append` is
guarded by `if not matched_chunk.empty`), and either concatenate them with a
success message or return the empty dataframe with the no-duplicates success
message.  The returned pair is (result dataframe, final status message). -/
def find_duplicates (df1 df2 : DF) (c1 c2 : String)
    (chunk_size : Nat := 500) : DF × Msg :=
  let validIds := validIdsSet df2 c2
  let chunkResults := (chunkList chunk_size df1).map
    (processChunk validIds df2 c1 c2)
  let duplicates := chunkResults.filter (fun l => !l.isEmpty)
  if duplicates.isEmpty then
    ([], Msg.success noDupMsg)
  else
    (duplicates.flatten, Msg.success (foundMsg duplicates.flatten.length))

/-- The per-row normal form of the chunk loop: normalize the row's
identifier into `Standard_ID`, and when it is in the lookup set fan it out
against `df2`, otherwise produce nothing. -/
def matchRow (validIds : List String) (df2 : DF) (c1 c2 : String)
    (r : Row) : DF :=
  let r2 := addStandardID c1 r
  if isinSet (getVal r2 "Standard_ID") validIds then joinOneRow df2 c2 r2
  else []

/-- Whether a requested sheet name is retained by the loader: it exists in
the workbook and its header contains the identifier column. -/
def sheetRetained (xls : List Sheet) (idColumn : String) (nm : String) :
    Bool :=
  match xls.find? (fun s => s.name == nm) with
  | some sh => sh.header.contains idColumn
  | none => false

/-- The rows a requested sheet name contributes to the loader output: its
rows with the identifier column normalized when retained, nothing
otherwise. -/
def retainedRows (xls : List Sheet) (idColumn : String) (nm : String) : DF :=
  match xls.find? (fun s => s.name == nm) with
  | some sh =>
      if sh.header.contains idColumn then normalizeIdCol sh.rows idColumn
      else []
  | none => []

/-! ### Basic lemmas about rows and columns -/

lemma getVal_eq_of (l : Row) (c : String) (v : Val)
    (hall : ∀ q ∈ l, q.1 = c → q.2 = v) (hex : ∃ q ∈ l, q.1 = c) :
    getVal l c = v := by
  obtain ⟨q, hq, hqc⟩ := hex
  have hsome : (l.find? (fun p => p.1 == c)).isSome := by
    rw [List.find?_isSome]
    exact ⟨q, hq, by simpa using hqc⟩
  obtain ⟨q', hq'⟩ := Option.isSome_iff_exists.mp hsome
  have hmem := List.mem_of_find?_eq_some hq'
  have hpred := List.find?_some hq'
  have : q'.1 = c := by simpa using hpred
  simp only [getVal, hq']
  exact hall q' hmem this

lemma getVal_append_of_ex (l1 l2 : Row) (c : String)
    (hex : ∃ q ∈ l1, q.1 = c) : getVal (l1 ++ l2) c = getVal l1 c := by
  have hsome : (l1.find? (fun p => p.1 == c)).isSome := by
    rw [List.find?_isSome]
    obtain ⟨q, hq, hqc⟩ := hex
    exact ⟨q, hq, by simpa using hqc⟩
  obtain ⟨q', hq'⟩ := Option.isSome_iff_exists.mp hsome
  simp only [getVal, List.find?_append, hq', Option.or_some]

lemma setCol_key_val (r : Row) (c : String) (v : Val) :
    ∀ q ∈ setCol r c v, q.1 = c → q.2 = v := by
  intro q hq hqc
  unfold setCol at hq
  split at hq
  · obtain ⟨p, hp, hpq⟩ := List.mem_map.mp hq
    by_cases hpc : p.1 = c
    · simp [hpc] at hpq
      rw [← hpq]
    · simp [hpc] at hpq
      rw [← hpq] at hqc
      exact absurd hqc hpc
  · rcases List.mem_append.mp hq with h | h
    · next hany =>
      exfalso
      exact hany (List.any_eq_true.mpr ⟨q, h, by simpa using hqc⟩)
    · simp at h
      rw [h]

lemma setCol_key_mem (r : Row) (c : String) (v : Val) :
    ∃ q ∈ setCol r c v, q.1 = c := by
  unfold setCol
  split
  · next hany =>
    obtain ⟨p, hp, hpc⟩ := List.any_eq_true.mp hany
    refine ⟨(c, v), List.mem_map.mpr ⟨p, hp, ?_⟩, rfl⟩
    simp [show p.1 = c by simpa using hpc]
  · exact ⟨(c, v), List.mem_append.mpr (Or.inr (by simp)), rfl⟩

lemma getVal_setCol_self (r : Row) (c : String) (v : Val) :
    getVal (setCol r c v) c = v :=
  getVal_eq_of _ _ _ (setCol_key_val r c v) (setCol_key_mem r c v)

lemma getVal_addStandardID (c1 : String) (r : Row) :
    getVal (addStandardID c1 r) "Standard_ID" =
      Val.str (normId (getVal r c1)) :=
  getVal_setCol_self r "Standard_ID" (Val.str (normId (getVal r c1)))

/-- No column name suffixed with `_File1` can collide with `Standard_ID`. -/
lemma suffix1_ne_standard (c : String) : c ++ "_File1" ≠ "Standard_ID" := by
  intro h
  have hd : c.data ++ "_File1".data = "Standard_ID".data := by
    rw [← String.data_append, h]
  have h1 : (c.data ++ "_File1".data).getLast? = some '1' := by
    rw [List.getLast?_append]
    rfl
  rw [hd] at h1
  simp at h1

/-! ### Chunking lemmas -/

lemma chunkListAux_flatten {α : Type} (fuel : Nat) (n : Nat) (xs : List α)
    (hn : 0 < n) (hf : xs.length ≤ fuel) :
    (chunkListAux fuel n xs).flatten = xs := by
  induction fuel generalizing xs with
  | zero =>
    have : xs = [] := List.eq_nil_of_length_eq_zero (Nat.le_zero.mp hf)
    subst this
    rfl
  | succ fuel ih =>
    cases xs with
    | nil => rfl
    | cons a tl =>
      show ((a :: tl).take n :: chunkListAux fuel n ((a :: tl).drop n)).flatten
        = a :: tl
      rw [List.flatten_cons, ih ((a :: tl).drop n) ?_, List.take_append_drop]
      have hlen : ((a :: tl).drop n).length = (a :: tl).length - n :=
        List.length_drop n (a :: tl)
      simp only [hlen, List.length_cons]
      simp only [List.length_cons] at hf
      omega

lemma chunkList_flatten {α : Type} (n : Nat) (xs : List α) (hn : 0 < n) :
    (chunkList n xs).flatten = xs :=
  chunkListAux_flatten xs.length n xs hn le_rfl

lemma mem_of_mem_chunkListAux {α : Type} (fuel n : Nat) :
    ∀ (xs c : List α), c ∈ chunkListAux fuel n xs → ∀ a ∈ c, a ∈ xs := by
  induction fuel with
  | zero =>
    intro xs c hc
    simp [chunkListAux] at hc
  | succ fuel ih =>
    intro xs c hc a ha
    cases xs with
    | nil => simp [chunkListAux] at hc
    | cons x tl =>
      rcases List.mem_cons.mp hc with h | h
      · subst h
        exact List.take_subset n (x :: tl) ha
      · exact List.drop_subset n (x :: tl) (ih ((x :: tl).drop n) c h a ha)

lemma mem_of_mem_chunkList {α : Type} (n : Nat) (xs : List α) (c : List α)
    (hc : c ∈ chunkList n xs) (a : α) (ha : a ∈ c) : a ∈ xs :=
  mem_of_mem_chunkListAux xs.length n xs c hc a ha

/-! ### Normal form of the chunk loop -/

lemma flatten_filter_nonempty {α : Type} (ll : List (List α)) :
    (ll.filter (fun l => !l.isEmpty)).flatten = ll.flatten := by
  induction ll with
  | nil => rfl
  | cons l tl ih =>
    cases l with
    | nil => simpa using ih
    | cons a l' => simpa using ih

lemma flatten_map_flatMap {α β : Type} (ll : List (List α)) (f : α → List β) :
    (ll.map (fun c => c.flatMap f)).flatten = ll.flatten.flatMap f := by
  induction ll with
  | nil => rfl
  | cons l tl ih => simp [ih, List.flatMap_append]

lemma processChunk_eq_flatMap (validIds : List String) (df2 : DF)
    (c1 c2 : String) (chunk : DF) :
    processChunk validIds df2 c1 c2 chunk =
      chunk.flatMap (matchRow validIds df2 c1 c2) := by
  have key : ∀ l : DF,
      mergeLeft ((l.map (addStandardID c1)).filter
        (fun r => isinSet (getVal r "Standard_ID") validIds)) df2 c2 =
      l.flatMap (matchRow validIds df2 c1 c2) := by
    intro l
    induction l with
    | nil => rfl
    | cons r tl ih =>
      simp only [List.map_cons, List.flatMap_cons, ← ih]
      by_cases h : isinSet (getVal (addStandardID c1 r) "Standard_ID")
          validIds = true
      · simp [List.filter_cons, h, mergeLeft, matchRow]
      · simp [List.filter_cons, h, mergeLeft, matchRow]
  simp only [processChunk]
  split
  · next hemp =>
    rw [← key chunk]
    have : ((chunk.map (addStandardID c1)).filter
        (fun r => isinSet (getVal r "Standard_ID") validIds)) = [] := by
      simpa [List.isEmpty_iff] using hemp
    rw [this]
    rfl
  · exact key chunk

lemma find_duplicates_fst (df1 df2 : DF) (c1 c2 : String) (n : Nat)
    (hn : 0 < n) :
    (find_duplicates df1 df2 c1 c2 n).1 =
      df1.flatMap (matchRow (validIdsSet df2 c2) df2 c1 c2) := by
  have h1 : (find_duplicates df1 df2 c1 c2 n).1 =
      (((chunkList n df1).map
        (processChunk (validIdsSet df2 c2) df2 c1 c2)).filter
          (fun l => !l.isEmpty)).flatten := by
    simp only [find_duplicates]
    split
    · next hemp =>
      simp [List.isEmpty_iff.mp hemp]
    · rfl
  rw [h1, flatten_filter_nonempty]
  have h2 : (chunkList n df1).map
      (processChunk (validIdsSet df2 c2) df2 c1 c2) =
      (chunkList n df1).map
        (fun c => c.flatMap (matchRow (validIdsSet df2 c2) df2 c1 c2)) :=
    List.map_congr_left (fun c _ => processChunk_eq_flatMap _ _ _ _ c)
  rw [h2, flatten_map_flatMap, chunkList_flatten n df1 hn]

/-! ### The lookup set and per-row matching -/

lemma mem_validIdsSet (df2 : DF) (c2 : String) (t : String) :
    t ∈ validIdsSet df2 c2 ↔
      ∃ rr ∈ df2, getVal rr c2 ≠ Val.missing ∧ normId (getVal rr c2) = t := by
  simp only [validIdsSet, List.mem_map, List.mem_filter, bne_iff_ne]
  constructor
  · rintro ⟨v, ⟨⟨rr, hrr, rfl⟩, hv⟩, rfl⟩
    exact ⟨rr, hrr, hv, rfl⟩
  · rintro ⟨rr, hrr, hv, rfl⟩
    exact ⟨getVal rr c2, ⟨⟨rr, hrr, rfl⟩, hv⟩, rfl⟩

lemma isinSet_str (s : String) (ids : List String) :
    isinSet (Val.str s) ids = true ↔ s ∈ ids := by
  simp only [isinSet]
  exact List.elem_iff

lemma matchRow_eq_nil (validIds : List String) (df2 : DF) (c1 c2 : String)
    (r : Row) (h : normId (getVal r c1) ∉ validIds) :
    matchRow validIds df2 c1 c2 r = [] := by
  simp only [matchRow]
  rw [getVal_addStandardID]
  rw [if_neg]
  intro hmem
  exact h ((isinSet_str _ _).mp hmem)

lemma find_duplicates_erase (pre post : DF) (r : Row) (df2 : DF)
    (c1 c2 : String) (n : Nat) (hn : 0 < n)
    (h : matchRow (validIdsSet df2 c2) df2 c1 c2 r = []) :
    (find_duplicates (pre ++ r :: post) df2 c1 c2 n).1 =
      (find_duplicates (pre ++ post) df2 c1 c2 n).1 := by
  rw [find_duplicates_fst _ _ _ _ _ hn, find_duplicates_fst _ _ _ _ _ hn]
  simp [List.flatMap_append, h]

lemma find_duplicates_of_no_match (df1 df2 : DF) (c1 c2 : String) (n : Nat)
    (h : ∀ r ∈ df1, normId (getVal r c1) ∉ validIdsSet df2 c2) :
    find_duplicates df1 df2 c1 c2 n = ([], Msg.success noDupMsg) := by
  have hchunks : ∀ chunk ∈ chunkList n df1,
      processChunk (validIdsSet df2 c2) df2 c1 c2 chunk = [] := by
    intro chunk hchunk
    rw [processChunk_eq_flatMap]
    apply List.flatMap_eq_nil_iff.mpr
    intro r hr
    exact matchRow_eq_nil _ _ _ _ _
      (h r (mem_of_mem_chunkList n df1 chunk hchunk r hr))
  have hdup : ((chunkList n df1).map
        (processChunk (validIdsSet df2 c2) df2 c1 c2)).filter
      (fun l => !l.isEmpty) = [] := by
    apply List.filter_eq_nil_iff.mpr
    intro l hl
    obtain ⟨chunk, hchunk, rfl⟩ := List.mem_map.mp hl
    simp [hchunks chunk hchunk]
  simp only [find_duplicates, hdup]
  rfl

/-! ### Loader lemmas -/

lemma retainedRows_of_not_retained (xls : List Sheet) (idc nm : String)
    (h : sheetRetained xls idc nm = false) : retainedRows xls idc nm = [] := by
  cases hf : xls.find? (fun s => s.name == nm) with
  | none => simp [retainedRows, hf]
  | some sh =>
    simp only [sheetRetained, hf] at h
    simp at h
    simp [retainedRows, hf, h]

lemma loadStep_fst (xls : List Sheet) (idc : String)
    (acc : List DF × List Msg) (nm : String) :
    (loadStep xls idc acc nm).1 = acc.1 ++
      (if sheetRetained xls idc nm then [retainedRows xls idc nm] else []) := by
  cases hf : xls.find? (fun s => s.name == nm) with
  | none => simp [loadStep, sheetRetained, hf]
  | some sh =>
    by_cases hc : idc ∈ sh.header <;>
      simp [loadStep, sheetRetained, retainedRows, hf, hc]

lemma loadStep_snd_err (xls : List Sheet) (idc : String)
    (acc : List DF × List Msg) (nm : String) :
    (loadStep xls idc acc nm).2.any Msg.isError = acc.2.any Msg.isError := by
  cases hf : xls.find? (fun s => s.name == nm) with
  | none => simp [loadStep, hf, Msg.isError]
  | some sh =>
    by_cases hc : idc ∈ sh.header <;> simp [loadStep, hf, hc, Msg.isError]

lemma load_foldl_fst (xls : List Sheet) (idc : String) :
    ∀ (l : List String) (acc : List DF × List Msg),
      (l.foldl (loadStep xls idc) acc).1 = acc.1 ++
        l.flatMap (fun nm =>
          if sheetRetained xls idc nm then [retainedRows xls idc nm]
          else []) := by
  intro l
  induction l with
  | nil => intro acc; simp
  | cons nm tl ih =>
    intro acc
    rw [List.foldl_cons, ih, loadStep_fst]
    by_cases h : sheetRetained xls idc nm <;> simp [h]

lemma load_foldl_snd_err (xls : List Sheet) (idc : String) :
    ∀ (l : List String) (acc : List DF × List Msg),
      (l.foldl (loadStep xls idc) acc).2.any Msg.isError =
        acc.2.any Msg.isError := by
  intro l
  induction l with
  | nil => intro acc; rfl
  | cons nm tl ih =>
    intro acc
    rw [List.foldl_cons, ih, loadStep_snd_err]

lemma flatten_retained_frames (xls : List Sheet) (idc : String) :
    ∀ (l : List String),
      (l.flatMap (fun nm =>
        if sheetRetained xls idc nm then [retainedRows xls idc nm]
        else [])).flatten = l.flatMap (retainedRows xls idc) := by
  intro l
  induction l with
  | nil => rfl
  | cons nm tl ih =>
    rw [List.flatMap_cons, List.flatMap_cons, List.flatten_append, ih]
    by_cases h : sheetRetained xls idc nm
    · simp [h]
    · simp [h, retainedRows_of_not_retained xls idc nm (by simp [h])]

lemma retained_frames_isEmpty (xls : List Sheet) (idc : String)
    (l : List String) :
    (l.flatMap (fun nm =>
        if sheetRetained xls idc nm then [retainedRows xls idc nm]
        else [])).isEmpty =
      l.all (fun nm => !sheetRetained xls idc nm) := by
  induction l with
  | nil => rfl
  | cons nm tl ih =>
    rw [List.flatMap_cons, List.all_cons, ← ih]
    by_cases h : sheetRetained xls idc nm <;> simp [h]

lemma load_fst (xls : List Sheet) (toLoad : List String) (idc : String) :
    (load_dataframe_from_selected_sheets xls toLoad idc).1 =
      toLoad.flatMap (retainedRows xls idc) := by
  simp only [load_dataframe_from_selected_sheets]
  split
  · next h =>
    rw [load_foldl_fst, List.nil_append] at h
    rw [← flatten_retained_frames]
    simp [List.isEmpty_iff.mp h]
  · rw [load_foldl_fst, List.nil_append, flatten_retained_frames]

/-! ### Matching under a normalized second collection -/

lemma matchRow_normalized (df2 : DF) (c1 c2 : String)
    (hnorm : ∀ rr ∈ df2, getVal rr c2 = Val.str (normId (getVal rr c2)))
    (r : Row) :
    matchRow (validIdsSet df2 c2) df2 c1 c2 r =
      (df2.filter (fun rr =>
        joinEq (Val.str (normId (getVal r c1))) (getVal rr c2))).map
        (mergeRow (cols df2) (addStandardID c1 r)) := by
  simp only [matchRow]
  rw [getVal_addStandardID]
  by_cases hmem : isinSet (Val.str (normId (getVal r c1)))
      (validIdsSet df2 c2) = true
  · rw [if_pos hmem]
    simp only [joinOneRow]
    rw [getVal_addStandardID]
    rw [if_neg]
    intro hemp
    rw [List.isEmpty_iff, List.filter_eq_nil_iff] at hemp
    obtain ⟨rr, hrr, hne, hid⟩ :=
      (mem_validIdsSet df2 c2 _).mp ((isinSet_str _ _).mp hmem)
    refine hemp rr hrr ?_
    rw [hnorm rr hrr, hid]
    simp [joinEq]
  · rw [if_neg hmem]
    have : df2.filter (fun rr =>
        joinEq (Val.str (normId (getVal r c1))) (getVal rr c2)) = [] := by
      rw [List.filter_eq_nil_iff]
      intro rr hrr hj
      rw [hnorm rr hrr] at hj
      simp only [joinEq, beq_iff_eq, Val.str.injEq] at hj
      apply hmem
      rw [isinSet_str, hj]
      exact (mem_validIdsSet df2 c2 _).mpr
        ⟨rr, hrr, by rw [hnorm rr hrr]; simp, rfl⟩
    rw [this]
    rfl

/-! ### The Standard_ID column of output rows -/

lemma getVal_mergeRow_standardID (rc : List String)
    (h2 : rc.contains "Standard_ID" = false) (r : Row) (v : Val)
    (rrow : Row) :
    getVal (mergeRow rc (setCol r "Standard_ID" v) rrow) "Standard_ID" =
      v := by
  unfold mergeRow
  have hex2 : ∃ q ∈ (setCol r "Standard_ID" v).map (suffixIfIn "_File1" rc),
      q.1 = "Standard_ID" := by
    obtain ⟨p, hp, hpc⟩ := setCol_key_mem r "Standard_ID" v
    refine ⟨suffixIfIn "_File1" rc p, List.mem_map.mpr ⟨p, hp, rfl⟩, ?_⟩
    have hni : "Standard_ID" ∉ rc := by simpa using h2
    simp [suffixIfIn, hpc, hni]
  rw [getVal_append_of_ex _ _ _ hex2]
  refine getVal_eq_of _ _ _ ?_ hex2
  intro q hq hqc
  obtain ⟨p, hp, rfl⟩ := List.mem_map.mp hq
  by_cases hpin : p.1 ∈ rc
  · exfalso
    have hname : (suffixIfIn "_File1" rc p).1 = p.1 ++ "_File1" := by
      simp [suffixIfIn, hpin]
    rw [hname] at hqc
    exact suffix1_ne_standard p.1 hqc
  · have heq : suffixIfIn "_File1" rc p = p := by
      simp [suffixIfIn, hpin]
    rw [heq] at hqc ⊢
    exact setCol_key_val r "Standard_ID" v p hp hqc

/-! ### Idempotence of the whitespace trim -/

lemma dropWhile_eq_self_of_head? {p : Char → Bool} {l : List Char}
    (h : ∀ a, l.head? = some a → p a = false) : l.dropWhile p = l := by
  cases l with
  | nil => rfl
  | cons a t => simp [List.dropWhile_cons, h a rfl]

lemma head?_trimR (p : Char → Bool) (l : List Char) (a : Char)
    (h : ((l.reverse.dropWhile p).reverse).head? = some a) :
    l.head? = some a := by
  obtain ⟨pre, hpre⟩ := List.dropWhile_suffix (l := l.reverse) p
  rw [List.head?_reverse] at h
  have hl : (l.reverse).getLast? = some a := by
    rw [← hpre, List.getLast?_append, h]
    rfl
  have hrev : l.reverse.reverse.head? = l.reverse.getLast? :=
    List.head?_reverse l.reverse
  rw [List.reverse_reverse] at hrev
  rw [hrev]
  exact hl

lemma pyStrip_idem (s : String) : pyStrip (pyStrip s) = pyStrip s := by
  unfold pyStrip
  have hdata : (String.mk (((s.data.dropWhile Char.isWhitespace).reverse.dropWhile
      Char.isWhitespace).reverse)).data =
      ((s.data.dropWhile Char.isWhitespace).reverse.dropWhile
        Char.isWhitespace).reverse := rfl
  rw [hdata]
  have h1 : (((s.data.dropWhile Char.isWhitespace).reverse.dropWhile
      Char.isWhitespace).reverse).dropWhile Char.isWhitespace =
      ((s.data.dropWhile Char.isWhitespace).reverse.dropWhile
        Char.isWhitespace).reverse := by
    apply dropWhile_eq_self_of_head?
    intro a ha
    have hhead : (s.data.dropWhile Char.isWhitespace).head? = some a :=
      head?_trimR Char.isWhitespace (s.data.dropWhile Char.isWhitespace) a ha
    have := List.head?_dropWhile_not Char.isWhitespace s.data
    rw [hhead] at this
    exact this
  rw [h1, List.reverse_reverse, List.dropWhile_idempotent]

lemma normId_str_normId (v : Val) :
    normId (Val.str (normId v)) = normId v := pyStrip_idem v.toPyStr

/-- Defensive re-normalization: when the second collection's identifier
column has no missing values, the lookup set built from the raw collection
equals the lookup set built from the loader-normalized collection. -/
lemma validIdsSet_normalizeIdCol (df2 : DF) (c2 : String)
    (hmiss : ∀ rr ∈ df2, getVal rr c2 ≠ Val.missing) :
    validIdsSet (normalizeIdCol df2 c2) c2 = validIdsSet df2 c2 := by
  induction df2 with
  | nil => rfl
  | cons r tl ih =>
    have hmiss_tl : ∀ rr ∈ tl, getVal rr c2 ≠ Val.missing :=
      fun rr h => hmiss rr (List.mem_cons_of_mem _ h)
    have hr : getVal r c2 ≠ Val.missing := hmiss r (List.mem_cons_self _ _)
    have hhd : getVal (setCol r c2 (Val.str (normId (getVal r c2)))) c2 =
        Val.str (normId (getVal r c2)) := getVal_setCol_self _ _ _
    simp only [validIdsSet, normalizeIdCol, List.map_cons, List.filter_cons,
      hhd] at ih ⊢
    rw [if_pos (by simp), if_pos (by simpa using hr)]
    simp only [List.map_cons, normId_str_normId]
    congr 1
    simpa [validIdsSet, normalizeIdCol] using ih hmiss_tl

/-! ### Concrete sample data -/

/-- A one-row first collection whose identifier "A7" occurs twice in
`sampleB`. -/
def sampleA : DF := [[("id", Val.str "A7"), ("n", Val.str "x")]]

/-- A second collection with identifier "A7" in two records and "B1" in
one. -/
def sampleB : DF :=
  [[("id", Val.str "A7"), ("v", Val.str "p")],
   [("id", Val.str "A7"), ("v", Val.str "q")],
   [("id", Val.str "B1"), ("v", Val.str "r")]]

/-- A second collection whose identifier was NOT normalized (a caller that
bypassed the loader): the raw value still carries whitespace. -/
def rawB : DF := [[("id", Val.str " A1 "), ("x", Val.str "v")]]

/-- A one-row first collection with the already-normalized identifier
"A1". -/
def oneA1 : DF := [[("id", Val.str "A1")]]

/-- A workbook with one sheet whose single row has a missing identifier. -/
def missingXls : List Sheet := [⟨"S", ["id"], [[("id", Val.missing)]]⟩]

/-- A workbook with one sheet that has the identifier column in its header
but zero data rows. -/
def emptyRowsXls : List Sheet := [⟨"S", ["id"], []⟩]

/-- The first output row of `find_duplicates sampleA sampleB "id" "id"`. -/
def outSample : Row :=
  [("id_File1", Val.str "A7"), ("n", Val.str "x"),
   ("Standard_ID", Val.str "A7"), ("id_File2", Val.str "A7"),
   ("v", Val.str "p")]

/-! ### Claim theorems -/

/-- C1: for every pair of row collections and identifier columns, the
Duplicate Matcher's output is identical for any two (positive) chunk sizes:
running `find_duplicates` with `chunk_size = a` yields the same match result
(same rows, same order) as with `chunk_size = b`. -/
theorem find_duplicates_chunk_size_invariant (df1 df2 : DF) (c1 c2 : String)
    (a b : Nat) (ha : 0 < a) (hb : 0 < b) :
    (find_duplicates df1 df2 c1 c2 a).1 =
      (find_duplicates df1 df2 c1 c2 b).1 := by
  rw [find_duplicates_fst _ _ _ _ _ ha, find_duplicates_fst _ _ _ _ _ hb]

/-- Witness for C1 at chunk sizes 1 and 2 on concrete collections. -/
theorem find_duplicates_chunk_size_invariant_witness :
    0 < 1 ∧ 0 < 2 ∧
      (find_duplicates sampleA sampleB "id" "id" 1).1 =
        (find_duplicates sampleA sampleB "id" "id" 2).1 :=
  ⟨by decide, by decide,
    find_duplicates_chunk_size_invariant sampleA sampleB "id" "id" 1 2
      (by decide) (by decide)⟩

/-- C2: one-to-many fan-out.  When the second collection's identifier column
is normalized (as the loader leaves it), the match result is exactly: for
each row `r` of the first collection in order, one output row per second
collection record whose identifier equals `r`'s normalized identifier, each
output row merging `r`'s fields with that record's fields.  In particular a
record of the first collection whose normalized identifier equals the
identifier of `k ≥ 1` second-collection records contributes exactly `k`
output rows (the second conjunct makes the count explicit for a one-record
first collection). -/
theorem find_duplicates_fanout (df1 df2 : DF) (c1 c2 : String) (n : Nat)
    (hn : 0 < n)
    (hnorm : ∀ rr ∈ df2, getVal rr c2 = Val.str (normId (getVal rr c2))) :
    (find_duplicates df1 df2 c1 c2 n).1 =
      df1.flatMap (fun r =>
        (df2.filter (fun rr =>
          joinEq (Val.str (normId (getVal r c1))) (getVal rr c2))).map
          (mergeRow (cols df2) (addStandardID c1 r))) ∧
    ∀ r : Row, ((find_duplicates [r] df2 c1 c2 n).1).length =
      (df2.filter (fun rr =>
        joinEq (Val.str (normId (getVal r c1))) (getVal rr c2))).length := by
  have key : ∀ d : DF, (find_duplicates d df2 c1 c2 n).1 =
      d.flatMap (fun r =>
        (df2.filter (fun rr =>
          joinEq (Val.str (normId (getVal r c1))) (getVal rr c2))).map
          (mergeRow (cols df2) (addStandardID c1 r))) := by
    intro d
    rw [find_duplicates_fst _ _ _ _ _ hn]
    have hfun : matchRow (validIdsSet df2 c2) df2 c1 c2 = fun r =>
        (df2.filter (fun rr =>
          joinEq (Val.str (normId (getVal r c1))) (getVal rr c2))).map
          (mergeRow (cols df2) (addStandardID c1 r)) :=
      funext (matchRow_normalized df2 c1 c2 hnorm)
    rw [hfun]
  refine ⟨key df1, fun r => ?_⟩
  rw [key [r]]
  simp

/-- Witness for C2: identifier "A7" occurs in 2 records of `sampleB` and in
1 record of `sampleA`; the match result has exactly 2 rows. -/
theorem find_duplicates_fanout_witness :
    0 < 500 ∧
    (∀ rr ∈ sampleB, getVal rr "id" =
      Val.str (normId (getVal rr "id"))) ∧
    ((find_duplicates sampleA sampleB "id" "id" 500).1 =
      sampleA.flatMap (fun r =>
        (sampleB.filter (fun rr =>
          joinEq (Val.str (normId (getVal r "id"))) (getVal rr "id"))).map
          (mergeRow (cols sampleB) (addStandardID "id" r))) ∧
    ∀ r : Row, ((find_duplicates [r] sampleB "id" "id" 500).1).length =
      (sampleB.filter (fun rr =>
        joinEq (Val.str (normId (getVal r "id"))) (getVal rr "id"))).length)
      ∧
    ((find_duplicates sampleA sampleB "id" "id" 500).1).length = 2 :=
  ⟨by decide, by decide,
    find_duplicates_fanout sampleA sampleB "id" "id" 500 (by decide)
      (by decide), by decide⟩

/-- C3 counterexample: a first-collection row with a MISSING identifier,
pushed through the pipeline (loader then matcher), DOES produce an output
row when the second collection also contains a missing identifier: the
loader's `astype(str)` turns NaN into the literal string "nan" on both
sides, so the two "nan" strings match.  This refutes the claim that rows
with a missing/empty identifier never match. -/
theorem missing_id_matches_counterexample :
    getVal [("id", Val.missing)] "id" = Val.missing ∧
    (load_dataframe_from_selected_sheets missingXls ["S"] "id").1 =
      [[("id", Val.str "nan")]] ∧
    (find_duplicates
      (load_dataframe_from_selected_sheets missingXls ["S"] "id").1
      (load_dataframe_from_selected_sheets missingXls ["S"] "id").1
      "id" "id" 500).1 ≠ [] := by decide

/-- C3 amended: a first-collection row whose identifier is missing (or
normalizes to the empty string) produces no output row PROVIDED the second
collection's lookup set contains neither the NaN cast "nan" nor the empty
string; removing such a row does not change the match result. -/
theorem missing_or_empty_id_never_matches (pre post : DF) (r : Row)
    (df2 : DF) (c1 c2 : String) (n : Nat) (hn : 0 < n)
    (hnan : "nan" ∉ validIdsSet df2 c2) (hemp : "" ∉ validIdsSet df2 c2)
    (hr : getVal r c1 = Val.missing ∨ normId (getVal r c1) = "") :
    (find_duplicates (pre ++ r :: post) df2 c1 c2 n).1 =
      (find_duplicates (pre ++ post) df2 c1 c2 n).1 := by
  apply find_duplicates_erase _ _ _ _ _ _ _ hn
  apply matchRow_eq_nil
  rcases hr with h | h
  · rw [h]
    show normId Val.missing ∉ validIdsSet df2 c2
    rw [show normId Val.missing = "nan" from rfl]
    exact hnan
  · rw [h]
    exact hemp

/-- Witness for the amended C3: a missing-identifier row against `sampleB`
(whose lookup set has neither "nan" nor "") yields the same result as the
empty first collection. -/
theorem missing_or_empty_id_never_matches_witness :
    0 < 1 ∧ ("nan" ∉ validIdsSet sampleB "id") ∧
    ("" ∉ validIdsSet sampleB "id") ∧
    (getVal [("id", Val.missing)] "id" = Val.missing ∨
      normId (getVal [("id", Val.missing)] "id") = "") ∧
    (find_duplicates ([] ++ [("id", Val.missing)] :: []) sampleB
        "id" "id" 1).1 =
      (find_duplicates ([] ++ []) sampleB "id" "id" 1).1 :=
  ⟨by decide, by decide, by decide, by decide,
    missing_or_empty_id_never_matches [] [] [("id", Val.missing)] sampleB
      "id" "id" 1 (by decide) (by decide) (by decide) (by decide)⟩

/-- C4 counterexample: with a second collection whose identifier still
carries whitespace (" A1 ", i.e. the caller bypassed the loader), the
matcher's defensive re-normalization affects only the membership filter; the
left join still compares raw values, so the result differs from running the
matcher on the normalized second collection: the raw run keeps the row but
fills the second file's columns with the missing marker. -/
theorem renorm_not_equivalent_counterexample :
    (find_duplicates oneA1 rawB "id" "id" 500).1 ≠
      (find_duplicates oneA1 (normalizeIdCol rawB "id") "id" "id" 500).1 ∧
    (find_duplicates oneA1 rawB "id" "id" 500).1 =
      [[("id_File1", Val.str "A1"), ("Standard_ID", Val.str "A1"),
        ("id_File2", Val.missing), ("x", Val.missing)]] ∧
    (find_duplicates oneA1 (normalizeIdCol rawB "id") "id" "id" 500).1 =
      [[("id_File1", Val.str "A1"), ("Standard_ID", Val.str "A1"),
        ("id_File2", Val.str "A1"), ("x", Val.str "v")]] := by decide

/-- C4 amended: the defensive re-normalization equalizes only the MEMBERSHIP
step.  When the second collection's identifier column has no missing values,
the lookup set — and hence the set of first-collection rows selected by the
`isin` filter — is the same whether or not the second collection was
normalized first; the join/enrichment, which compares raw second-collection
values, is NOT equalized (see the counterexample). -/
theorem renorm_equalizes_filter_only (df1 df2 : DF) (c1 c2 : String)
    (hmiss : ∀ rr ∈ df2, getVal rr c2 ≠ Val.missing) :
    validIdsSet (normalizeIdCol df2 c2) c2 = validIdsSet df2 c2 ∧
    df1.filter (fun r => isinSet (getVal (addStandardID c1 r) "Standard_ID")
        (validIdsSet (normalizeIdCol df2 c2) c2)) =
      df1.filter (fun r =>
        isinSet (getVal (addStandardID c1 r) "Standard_ID")
          (validIdsSet df2 c2)) := by
  have hset := validIdsSet_normalizeIdCol df2 c2 hmiss
  exact ⟨hset, by rw [hset]⟩

/-- Witness for the amended C4 on the whitespace-carrying collection
`rawB`. -/
theorem renorm_equalizes_filter_only_witness :
    (∀ rr ∈ rawB, getVal rr "id" ≠ Val.missing) ∧
    (validIdsSet (normalizeIdCol rawB "id") "id" = validIdsSet rawB "id" ∧
    oneA1.filter (fun r => isinSet (getVal (addStandardID "id" r)
        "Standard_ID") (validIdsSet (normalizeIdCol rawB "id") "id")) =
      oneA1.filter (fun r => isinSet (getVal (addStandardID "id" r)
        "Standard_ID") (validIdsSet rawB "id"))) :=
  ⟨by decide,
    renorm_equalizes_filter_only oneA1 rawB "id" "id" (by decide)⟩

/-- C5 counterexample: a requested sheet that EXISTS and HAS the identifier
column but contains zero data rows is retained, so the loader returns an
empty collection with only an info message and NO error — even though zero
records were retained.  The code's error condition is "zero sheets
retained", not "zero records retained". -/
theorem zero_records_no_error_counterexample :
    (load_dataframe_from_selected_sheets emptyRowsXls ["S"] "id").1 = [] ∧
    (load_dataframe_from_selected_sheets emptyRowsXls ["S"] "id").2 =
      [Msg.info "Loaded data from sheet S"] ∧
    (load_dataframe_from_selected_sheets emptyRowsXls ["S"] "id").2.any
      Msg.isError = false := by decide

/-- C5 amended: the loader reports an error if and only if NO requested
sheet was retained (each requested sheet was either absent from the workbook
or lacked the identifier column); whenever the error is reported the
returned collection is empty.  A retained sheet with zero rows yields an
empty collection with no error. -/
theorem load_error_iff_no_sheet_retained (xls : List Sheet)
    (toLoad : List String) (idc : String) :
    ((load_dataframe_from_selected_sheets xls toLoad idc).2.any Msg.isError =
      toLoad.all (fun nm => !sheetRetained xls idc nm)) ∧
    ((load_dataframe_from_selected_sheets xls toLoad idc).2.any Msg.isError =
        false ∨
      (load_dataframe_from_selected_sheets xls toLoad idc).1 = []) := by
  have hchar : ((toLoad.foldl (loadStep xls idc) ([], [])).1).isEmpty =
      toLoad.all (fun nm => !sheetRetained xls idc nm) := by
    rw [load_foldl_fst, List.nil_append, retained_frames_isEmpty]
  have herr : ((toLoad.foldl (loadStep xls idc) ([], [])).2).any
      Msg.isError = false := by
    rw [load_foldl_snd_err]
    rfl
  simp only [load_dataframe_from_selected_sheets]
  split
  · next h =>
    refine ⟨?_, Or.inr rfl⟩
    rw [← hchar, h]
    simp [Msg.isError]
  · next h =>
    refine ⟨?_, Or.inl herr⟩
    rw [← hchar]
    simp only [Bool.not_eq_true] at h
    rw [herr, h]

/-- C6: a first-collection row whose normalized identifier is not a member
of the lookup set (the normalized identifiers of the second collection)
contributes nothing to the match result: removing it leaves the output
unchanged. -/
theorem nonmatching_row_excluded (pre post : DF) (r : Row) (df2 : DF)
    (c1 c2 : String) (n : Nat) (hn : 0 < n)
    (h : normId (getVal r c1) ∉ validIdsSet df2 c2) :
    (find_duplicates (pre ++ r :: post) df2 c1 c2 n).1 =
      (find_duplicates (pre ++ post) df2 c1 c2 n).1 :=
  find_duplicates_erase pre post r df2 c1 c2 n hn
    (matchRow_eq_nil _ _ _ _ _ h)

/-- Witness for C6: identifier "Z9" is absent from `sampleB`, so the row
carrying it contributes no output row. -/
theorem nonmatching_row_excluded_witness :
    0 < 1 ∧ (normId (getVal [("id", Val.str "Z9")] "id") ∉
      validIdsSet sampleB "id") ∧
    (find_duplicates (sampleA ++ [("id", Val.str "Z9")] :: []) sampleB
        "id" "id" 1).1 =
      (find_duplicates (sampleA ++ []) sampleB "id" "id" 1).1 :=
  ⟨by decide, by decide,
    nonmatching_row_excluded sampleA [] [("id", Val.str "Z9")] sampleB
      "id" "id" 1 (by decide) (by decide)⟩

/-- C7: identifier comparison is exact equality of whitespace-trimmed
strings with no case folding: " A1 " and "A1" normalize identically and
match each other, while "a1" normalizes to itself, differs from "A1", and
does not match it in either direction. -/
theorem normalization_trims_whitespace_not_case :
    normId (Val.str " A1 ") = normId (Val.str "A1") ∧
    normId (Val.str "a1") ≠ normId (Val.str "A1") ∧
    (find_duplicates [[("id", Val.str " A1 ")]] [[("id", Val.str "A1")]]
      "id" "id" 500).1 ≠ [] ∧
    (find_duplicates [[("id", Val.str "a1")]] [[("id", Val.str "A1")]]
      "id" "id" 500).1 = [] ∧
    (find_duplicates [[("id", Val.str "A1")]] [[("id", Val.str "a1")]]
      "id" "id" 500).1 = [] := by decide

/-- C8: whenever no first-collection row has its normalized identifier in
the lookup set (in particular when the first collection is empty), the
matcher returns the empty match result together with the no-duplicates
SUCCESS message — the same success indicator constructor as the found case,
and not an error. -/
theorem zero_matches_returns_empty_success (df1 df2 : DF) (c1 c2 : String)
    (n : Nat)
    (h : ∀ r ∈ df1, normId (getVal r c1) ∉ validIdsSet df2 c2) :
    (find_duplicates df1 df2 c1 c2 n).1 = [] ∧
    (find_duplicates df1 df2 c1 c2 n).2 = Msg.success noDupMsg ∧
    Msg.isError (find_duplicates df1 df2 c1 c2 n).2 = false := by
  rw [find_duplicates_of_no_match df1 df2 c1 c2 n h]
  exact ⟨rfl, rfl, rfl⟩

/-- Witness for C8 at the empty first collection. -/
theorem zero_matches_returns_empty_success_witness :
    (∀ r ∈ ([] : DF), normId (getVal r "id") ∉ validIdsSet sampleB "id") ∧
    ((find_duplicates [] sampleB "id" "id" 500).1 = [] ∧
    (find_duplicates [] sampleB "id" "id" 500).2 = Msg.success noDupMsg ∧
    Msg.isError (find_duplicates [] sampleB "id" "id" 500).2 = false) :=
  ⟨by simp,
    zero_matches_returns_empty_success [] sampleB "id" "id" 500 (by simp)⟩

/-- C9: order preservation end to end.  The loader's combined collection is
the concatenation, in requested-sheet order, of each retained sheet's rows
in their original order; the matcher's result is the concatenation, in
first-collection order, of each row's matches (chunk concatenation in chunk
order with within-chunk order preserved collapses to exactly this per-row
normal form). -/
theorem pipeline_preserves_order (xls : List Sheet) (toLoad : List String)
    (idc : String) (df1 df2 : DF) (c1 c2 : String) (n : Nat) (hn : 0 < n) :
    (load_dataframe_from_selected_sheets xls toLoad idc).1 =
      toLoad.flatMap (retainedRows xls idc) ∧
    (find_duplicates df1 df2 c1 c2 n).1 =
      df1.flatMap (matchRow (validIdsSet df2 c2) df2 c1 c2) :=
  ⟨load_fst xls toLoad idc, find_duplicates_fst df1 df2 c1 c2 n hn⟩

/-- Witness for C9 on concrete data. -/
theorem pipeline_preserves_order_witness :
    0 < 1 ∧
    ((load_dataframe_from_selected_sheets emptyRowsXls ["S"] "id").1 =
      ["S"].flatMap (retainedRows emptyRowsXls "id") ∧
    (find_duplicates sampleA sampleB "id" "id" 1).1 =
      sampleA.flatMap (matchRow (validIdsSet sampleB "id") sampleB
        "id" "id")) :=
  ⟨by decide,
    pipeline_preserves_order emptyRowsXls ["S"] "id" sampleA sampleB
      "id" "id" 1 (by decide)⟩

/-- C10: every row of the match result carries a column named `Standard_ID`
holding the normalized identifier of the first-collection row it derives
from (provided, as in the claim, the second collection's schema does not
itself contain a `Standard_ID` column, which would trigger suffixing). -/
theorem output_rows_carry_standard_id (df1 df2 : DF) (c1 c2 : String)
    (n : Nat) (hn : 0 < n)
    (h2 : (cols df2).contains "Standard_ID" = false)
    (out : Row) (hout : out ∈ (find_duplicates df1 df2 c1 c2 n).1) :
    ∃ r ∈ df1, getVal out "Standard_ID" =
      Val.str (normId (getVal r c1)) := by
  rw [find_duplicates_fst _ _ _ _ _ hn] at hout
  obtain ⟨r, hr, hout⟩ := List.mem_flatMap.mp hout
  refine ⟨r, hr, ?_⟩
  simp only [matchRow] at hout
  by_cases hin : isinSet (getVal (addStandardID c1 r) "Standard_ID")
      (validIdsSet df2 c2) = true
  · rw [if_pos hin] at hout
    simp only [joinOneRow] at hout
    have hmr : ∃ rrow, out = mergeRow (cols df2) (addStandardID c1 r)
        rrow := by
      split at hout
      · rw [List.mem_singleton] at hout
        exact ⟨_, hout⟩
      · obtain ⟨rrow, _, hrrow⟩ := List.mem_map.mp hout
        exact ⟨rrow, hrrow.symm⟩
    obtain ⟨rrow, rfl⟩ := hmr
    exact getVal_mergeRow_standardID (cols df2) h2 r _ rrow
  · rw [if_neg hin] at hout
    simp at hout

/-- Witness for C10: the first output row of the sample comparison carries
`Standard_ID = "A7"`, the normalized identifier of the sample first-file
row. -/
theorem output_rows_carry_standard_id_witness :
    0 < 1 ∧ ((cols sampleB).contains "Standard_ID" = false) ∧
    outSample ∈ (find_duplicates sampleA sampleB "id" "id" 1).1 ∧
    ∃ r ∈ sampleA, getVal outSample "Standard_ID" =
      Val.str (normId (getVal r "id")) :=
  ⟨by decide, by decide, by decide,
    output_rows_carry_standard_id sampleA sampleB "id" "id" 1 (by decide)
      (by decide) outSample (by decide)⟩
